import Mathlib

/-!
Shallow embedding of the `sss-token` stablecoin program and its companion
`transfer-hook` program (Anchor / Solana; Rust sources
`programs/sss-token/src/lib.rs` and `programs/transfer-hook/src/lib.rs`).

Modelling conventions.

* `Pubkey` is an inductive address type: ordinary keypair addresses, and
  program-derived addresses (PDA) built from a program id, a namespace tag
  and one or two key parts.  Constructor injectivity models the runtime's
  deterministic, collision-free address derivation (spec section 4.1): two
  PDAs coincide exactly when their deriving program and seed tuple coincide.
* `u64` values are natural numbers.  Anchor workspaces compile on-chain code
  with overflow checks enabled, so `+` on `u64` aborts the transaction when
  the sum reaches `2 ^ 64`; this abort is the `TxError.arithmeticOverflow`
  outcome.  (Were overflow checks off, the sum would instead wrap modulo
  `2 ^ 64`; the theorems below note where that distinction matters.)
* Each instruction is a pure function from the accounts it reads to
  `Except TxError` of the accounts it writes.  The account constraints of the
  Anchor `#[derive(Accounts)]` context (`has_one`, `init`, typed-account
  deserialization) run before the handler body and are embedded first, in
  declaration order.  A transaction that returns an error commits nothing
  (host atomicity, spec section 5), so an `Except.error` outcome leaves every
  account exactly as it was; the `run...` wrappers make that explicit.
* Cross-program invocations into the external Token-2022 ledger are opaque
  function parameters returning `Except Nat Unit`; their `Nat` failure codes
  are injected through `TxError.ledger` and are therefore distinct by
  construction from both programs' own error codes.
-/

/-- Addresses: ordinary keys and program-derived addresses with a namespace
tag and one or two key parts, mirroring the PDA seed tuples used by the two
programs (`["config", mint]`, `["minter", config, minter]`,
`["blacklist", config, user]`, `["transfer_hook", mint]`,
`["blacklist", mint, owner]`). -/
inductive Pubkey where
  | key (n : Nat)
  | pda2 (programId : Pubkey) (tag : String) (k1 : Pubkey)
  | pda3 (programId : Pubkey) (tag : String) (k1 k2 : Pubkey)
deriving DecidableEq, Repr

/-- `#[error_code] pub enum StablecoinError` of `sss-token`. -/
inductive StablecoinError where
  | Unauthorized
  | InvalidAccount
  | QuotaExceeded
  | AccountFrozen
  | TokenPaused
  | ComplianceNotEnabled
  | PermanentDelegateNotEnabled
  | AlreadyBlacklisted
  | NotBlacklisted
  | InvalidAmount
deriving DecidableEq, Repr

/-- `#[error_code] pub enum TransferHookError` of `transfer-hook`. -/
inductive TransferHookError where
  | SenderBlacklisted
  | RecipientBlacklisted
  | InvalidTransferHookAccount
  | InvalidMintAccount
  | TransferPaused
deriving DecidableEq, Repr

/-- Every failure a transaction against these programs can surface. -/
inductive TxError where
  | program (e : StablecoinError)
  | hook (e : TransferHookError)
  /-- Anchor: an `Account<'info, T>` field resolved to an account that does
  not exist / holds no data. -/
  | accountNotInitialized
  /-- System program: `init` attempted on an address that already holds an
  account. -/
  | accountAlreadyInUse
  /-- Checked `u64` arithmetic aborted the transaction. -/
  | arithmeticOverflow
  /-- A Token-2022 CPI failed with the given ledger-side code. -/
  | ledger (code : Nat)
deriving DecidableEq, Repr

/-- `2 ^ 64`, the first natural number a `u64` cannot hold. -/
def u64Bound : Nat := 2 ^ 64

/-- Lift the result of an external Token-2022 call into this model's
transaction result. -/
def liftLedger (r : Except Nat Unit) : Except TxError Unit :=
  match r with
  | .ok _ => .ok ()
  | .error code => .error (.ledger code)

/-- `pub struct StablecoinConfig` (PDA `["config", mint]`). -/
structure StablecoinConfig where
  master_authority : Pubkey
  mint : Pubkey
  name : String
  symbol : String
  uri : String
  decimals : Nat
  paused : Bool
  bump : Nat
  enable_permanent_delegate : Bool
  enable_transfer_hook : Bool
  default_account_frozen : Bool
  blacklister : Pubkey
  pauser : Pubkey
  seizer : Pubkey
deriving DecidableEq, Repr

/-- `pub struct MinterInfo` (PDA `["minter", config, minter_authority]`). -/
structure MinterInfo where
  authority : Pubkey
  quota : Nat
  minted : Nat
  bump : Nat
deriving DecidableEq, Repr

/-- `pub struct BlacklistEntry` (PDA `["blacklist", config, user_address]`). -/
structure BlacklistEntry where
  user : Pubkey
  reason : String
  timestamp : Int
  bump : Nat
deriving DecidableEq, Repr

/-- `pub struct TransferHookData` (PDA `["transfer_hook", mint]`, owned by
the `transfer-hook` program). -/
structure TransferHookData where
  stablecoin_program : Pubkey
  mint : Pubkey
  authority : Pubkey
  paused : Bool
  bump : Nat
deriving DecidableEq, Repr

/-- The two fields of a Token-2022 token account the programs read. -/
structure TokenAccount where
  mint : Pubkey
  owner : Pubkey
deriving DecidableEq, Repr

/-- Address of the config account: PDA `["config", mint]` of the `sss-token`
program. -/
def configPda (programSss mintKey : Pubkey) : Pubkey :=
  .pda2 programSss "config" mintKey

/-- Address at which `AddToBlacklist` creates a `BlacklistEntry`:
PDA `["blacklist", config.key(), user.key()]` of the `sss-token` program. -/
def blacklistEntryPda (programSss configKey user : Pubkey) : Pubkey :=
  .pda3 programSss "blacklist" configKey user

/-- Address the hook's `ExecuteTransferHook` context binds for its existence
probes: PDA `["blacklist", hook_data.mint, token_account.owner]` derived
under the `transfer-hook` program itself (no `seeds::program` override). -/
def hookProbePda (programHook mintKey owner : Pubkey) : Pubkey :=
  .pda3 programHook "blacklist" mintKey owner

/-- All accounts holding a `BlacklistEntry`, keyed by their address. -/
abbrev BlacklistStore := List (Pubkey × BlacklistEntry)

def storeLookup : BlacklistStore → Pubkey → Option BlacklistEntry
  | [], _ => none
  | (k, v) :: rest, a => if k = a then some v else storeLookup rest a

/-- Closing the account at `a` (first match removed, mirroring the single
account at a derived address). -/
def storeErase : BlacklistStore → Pubkey → BlacklistStore
  | [], _ => []
  | (k, v) :: rest, a => if k = a then rest else (k, v) :: storeErase rest a

/-- The hook's `data.borrow().len() > 0` probe: the only accounts either
program ever creates at blacklist-derived addresses are `BlacklistEntry`
records (`BlacklistEntry::LEN = 153` bytes, nonzero); an absent account reads
as length `0`. -/
def accountHasData (store : BlacklistStore) (addr : Pubkey) : Bool :=
  (storeLookup store addr).isSome

/-! ## sss-token instructions -/

/-- `initialize` of `sss-token` (lines 126-165): validates display-field
lengths, then writes the fresh `StablecoinConfig`, defaulting the three
delegated roles to the initializing master authority and `paused` to
`false`. -/
def initConfig (authority mintKey : Pubkey) (name symbol uri : String)
    (decimals : Nat) (enablePermanentDelegate enableTransferHook
    defaultAccountFrozen : Bool) (bump : Nat) :
    Except TxError StablecoinConfig :=
  if 100 < name.length then .error (.program .InvalidAccount)
  else if 10 < symbol.length then .error (.program .InvalidAccount)
  else if 200 < uri.length then .error (.program .InvalidAccount)
  else .ok
    { master_authority := authority
      mint := mintKey
      name := name
      symbol := symbol
      uri := uri
      decimals := decimals
      paused := false
      bump := bump
      enable_permanent_delegate := enablePermanentDelegate
      enable_transfer_hook := enableTransferHook
      default_account_frozen := defaultAccountFrozen
      blacklister := authority
      pauser := authority
      seizer := authority }

/-- `mint` of `sss-token` (lines 169-197): rejects while paused, enforces
`minted + amount <= quota` (checked `u64` sum), records the new `minted`,
and invokes the ledger's `mint_to` with the signing minter as authority. -/
def mint (config : StablecoinConfig) (minterInfo : MinterInfo)
    (minter : Pubkey) (amount : Nat)
    (mintTo : Pubkey → Nat → Except Nat Unit) : Except TxError MinterInfo :=
  if config.paused then .error (.program .TokenPaused)
  else if u64Bound ≤ minterInfo.minted + amount then .error .arithmeticOverflow
  else if minterInfo.quota < minterInfo.minted + amount then
    .error (.program .QuotaExceeded)
  else
    match mintTo minter amount with
    | .error code => .error (.ledger code)
    | .ok _ => .ok { minterInfo with minted := minterInfo.minted + amount }

/-- `mint` plus the host's rollback: a failing transaction leaves the
`MinterInfo` account as it was. -/
def runMint (config : StablecoinConfig) (minterInfo : MinterInfo)
    (minter : Pubkey) (amount : Nat)
    (mintTo : Pubkey → Nat → Except Nat Unit) :
    MinterInfo × Option TxError :=
  match mint config minterInfo minter amount mintTo with
  | .ok m' => (m', none)
  | .error e => (minterInfo, some e)

/-- A sequence of `mint` calls by one minter, aborting at the first failure. -/
def mintSeq (config : StablecoinConfig) (minter : Pubkey)
    (mintTo : Pubkey → Nat → Except Nat Unit) :
    MinterInfo → List Nat → Except TxError MinterInfo
  | m, [] => .ok m
  | m, a :: rest =>
    match mint config m minter a mintTo with
    | .ok m' => mintSeq config minter mintTo m' rest
    | .error e => .error e

/-- `burn` of `sss-token` (lines 201-219): the handler's only local check is
the pause flag; it then invokes the ledger's `burn` with the signing
`burner` as authority.  The `Burn` context (lines 501-517) places no
role constraint on `burner`. -/
def burn (config : StablecoinConfig) (burner : Pubkey) (amount : Nat)
    (ledgerBurn : Pubkey → Nat → Except Nat Unit) : Except TxError Unit :=
  if config.paused then .error (.program .TokenPaused)
  else liftLedger (ledgerBurn burner amount)

/-- `freeze_account` of `sss-token` (lines 223-235): no local checks at all;
delegates to the ledger's `freeze_account` with the signing authority. -/
def freeze_account (_config : StablecoinConfig) (freezeAuthority : Pubkey)
    (ledgerFreeze : Pubkey → Except Nat Unit) : Except TxError Unit :=
  liftLedger (ledgerFreeze freezeAuthority)

/-- `thaw_account` of `sss-token` (lines 239-251): no local checks at all;
delegates to the ledger's `thaw_account` with the signing authority. -/
def thaw_account (_config : StablecoinConfig) (freezeAuthority : Pubkey)
    (ledgerThaw : Pubkey → Except Nat Unit) : Except TxError Unit :=
  liftLedger (ledgerThaw freezeAuthority)

/-- `pause` of `sss-token` (lines 255-260) with its `Pause` context's
`has_one = pauser` gate. -/
def pauseToken (config : StablecoinConfig) (signer : Pubkey) :
    Except TxError StablecoinConfig :=
  if signer ≠ config.pauser then .error (.program .Unauthorized)
  else .ok { config with paused := true }

/-- `unpause` of `sss-token` (lines 264-269) with `has_one = pauser`. -/
def unpauseToken (config : StablecoinConfig) (signer : Pubkey) :
    Except TxError StablecoinConfig :=
  if signer ≠ config.pauser then .error (.program .Unauthorized)
  else .ok { config with paused := false }

/-- `add_minter` of `sss-token` (lines 273-286) with its `AddMinter`
context's `has_one = master_authority` gate: initializes the quota record
with `minted = 0`. -/
def add_minter (config : StablecoinConfig) (master minterKey : Pubkey)
    (quota bump : Nat) : Except TxError MinterInfo :=
  if master ≠ config.master_authority then .error (.program .Unauthorized)
  else .ok { authority := minterKey, quota := quota, minted := 0, bump := bump }

/-- `update_minter_quota` of `sss-token` (lines 290-299) with
`has_one = master_authority`: overwrites `quota` with no `new_quota ≥ minted`
validation. -/
def update_minter_quota (config : StablecoinConfig) (master : Pubkey)
    (minterInfo : MinterInfo) (newQuota : Nat) : Except TxError MinterInfo :=
  if master ≠ config.master_authority then .error (.program .Unauthorized)
  else .ok { minterInfo with quota := newQuota }

/-- `update_roles` of `sss-token` (lines 313-327) with its `UpdateRoles`
context's `has_one = master_authority` gate (lines 657-671). -/
def update_roles (config : StablecoinConfig)
    (master newBlacklister newPauser newSeizer : Pubkey) :
    Except TxError StablecoinConfig :=
  if master ≠ config.master_authority then .error (.program .Unauthorized)
  else .ok { config with
    blacklister := newBlacklister
    pauser := newPauser
    seizer := newSeizer }

/-- `transfer_authority` of `sss-token` (lines 421-430) with its
`TransferAuthority` context's `has_one = master_authority` gate
(lines 749-763). -/
def transfer_authority (config : StablecoinConfig)
    (master newMasterAuthority : Pubkey) : Except TxError StablecoinConfig :=
  if master ≠ config.master_authority then .error (.program .Unauthorized)
  else .ok { config with master_authority := newMasterAuthority }

/-- A config-mutating instruction plus the host's rollback: a failing
transaction leaves the config account as it was. -/
def runConfigUpdate (config : StablecoinConfig)
    (r : Except TxError StablecoinConfig) :
    StablecoinConfig × Option TxError :=
  match r with
  | .ok c' => (c', none)
  | .error e => (config, some e)

/-- `add_to_blacklist` of `sss-token` (lines 331-356) with its
`AddToBlacklist` context (lines 675-700): `has_one = blacklister`, then
`init` of the entry at PDA `["blacklist", config.key(), user.key()]` (which
fails if an account already exists there), then the handler's compliance-flag
and reason-length checks, then the record write. -/
def add_to_blacklist (programSss configKey : Pubkey)
    (config : StablecoinConfig) (signer user : Pubkey) (reason : String)
    (now : Int) (bump : Nat) (store : BlacklistStore) :
    Except TxError BlacklistStore :=
  if signer ≠ config.blacklister then .error (.program .Unauthorized)
  else if (storeLookup store (blacklistEntryPda programSss configKey user)).isSome then
    .error .accountAlreadyInUse
  else if config.enable_transfer_hook = false then
    .error (.program .ComplianceNotEnabled)
  else if 100 < reason.length then .error (.program .InvalidAccount)
  else .ok ((blacklistEntryPda programSss configKey user,
    { user := user, reason := reason, timestamp := now, bump := bump }) :: store)

/-- `remove_from_blacklist` of `sss-token` (lines 360-388) with its
`RemoveFromBlacklist` context (lines 702-725): `has_one = blacklister`, then
deserialization of the existing entry at PDA
`["blacklist", config.key(), user.key()]` (which fails if no account exists
there), then the handler's compliance-flag check, then closure of the
entry account. -/
def remove_from_blacklist (programSss configKey : Pubkey)
    (config : StablecoinConfig) (signer user : Pubkey)
    (store : BlacklistStore) : Except TxError BlacklistStore :=
  if signer ≠ config.blacklister then .error (.program .Unauthorized)
  else if (storeLookup store (blacklistEntryPda programSss configKey user)).isNone then
    .error .accountNotInitialized
  else if config.enable_transfer_hook = false then
    .error (.program .ComplianceNotEnabled)
  else .ok (storeErase store (blacklistEntryPda programSss configKey user))

/-- `seize` of `sss-token` (lines 392-417) with its `Seize` context's
`has_one = seizer` gate (lines 727-747): checks the permanent-delegate flag,
then delegates to the ledger's `transfer_checked` with the seizer as
authority.  No pause check. -/
def seize (config : StablecoinConfig) (signer : Pubkey) (amount : Nat)
    (ledgerTransfer : Pubkey → Nat → Except Nat Unit) :
    Except TxError Unit :=
  if signer ≠ config.seizer then .error (.program .Unauthorized)
  else if config.enable_permanent_delegate = false then
    .error (.program .PermanentDelegateNotEnabled)
  else liftLedger (ledgerTransfer signer amount)

/-! ## transfer-hook instructions -/

/-- `execute` of `transfer-hook` (lines 97-132) with its
`ExecuteTransferHook` context (lines 215-252): the context checks both token
accounts' mint against `hook_data.mint` and binds the two probe accounts at
PDA `["blacklist", hook_data.mint, owner]` derived under the transfer-hook
program; the handler checks the hook-level pause flag and then rejects when
either probe account holds data. -/
def execute (programHook : Pubkey) (hook_data : TransferHookData)
    (source_token dest_token : TokenAccount) (_amount : Nat)
    (store : BlacklistStore) : Except TxError Unit :=
  if source_token.mint ≠ hook_data.mint then .error (.hook .InvalidMintAccount)
  else if dest_token.mint ≠ hook_data.mint then .error (.hook .InvalidMintAccount)
  else if hook_data.paused then .error (.hook .TransferPaused)
  else if accountHasData store
      (hookProbePda programHook hook_data.mint source_token.owner) then
    .error (.hook .SenderBlacklisted)
  else if accountHasData store
      (hookProbePda programHook hook_data.mint dest_token.owner) then
    .error (.hook .RecipientBlacklisted)
  else .ok ()

/-! ## Shared concrete sample data -/

/-- A well-formed config: master authority `key 1`, mint `key 2`, unpaused,
both feature flags on, all roles still at the master authority. -/
def sampleConfig : StablecoinConfig :=
  { master_authority := .key 1
    mint := .key 2
    name := "Sample USD"
    symbol := "SUSD"
    uri := "https://example.org/susd.json"
    decimals := 6
    paused := false
    bump := 255
    enable_permanent_delegate := true
    enable_transfer_hook := true
    default_account_frozen := false
    blacklister := .key 1
    pauser := .key 1
    seizer := .key 1 }

/-- Hook config for the same mint, not paused.  The `transfer-hook` program
id (`key 9`) differs from the `sss-token` program id (`key 0`), as the two
deployed programs' `declare_id` keys do. -/
def sampleHook : TransferHookData :=
  { stablecoin_program := .key 0
    mint := .key 2
    authority := .key 1
    paused := false
    bump := 254 }

/-! ## Helper lemmas -/

/-- A successful `mint` adds `amount` to `minted`, keeps `quota`, and lands
under the quota. -/
theorem mint_ok_bounds {config : StablecoinConfig} {m : MinterInfo}
    {minter : Pubkey} {a : Nat} {L : Pubkey → Nat → Except Nat Unit}
    {m' : MinterInfo} (h : mint config m minter a L = .ok m') :
    m'.minted = m.minted + a ∧ m'.quota = m.quota ∧ m'.minted ≤ m'.quota := by
  unfold mint at h
  split at h
  · exact Except.noConfusion h
  split at h
  · exact Except.noConfusion h
  split at h
  · exact Except.noConfusion h
  next hq =>
    split at h
    · exact Except.noConfusion h
    · cases h
      exact ⟨rfl, rfl, Nat.le_of_not_lt hq⟩

/-- The quota invariant is preserved along any successful `mint` sequence. -/
theorem mintSeq_ok_invariant {config : StablecoinConfig} {minter : Pubkey}
    {L : Pubkey → Nat → Except Nat Unit} :
    ∀ (as : List Nat) (m m' : MinterInfo), m.minted ≤ m.quota →
      mintSeq config minter L m as = .ok m' → m'.minted ≤ m'.quota := by
  intro as
  induction as with
  | nil =>
    intro m m' hm h
    unfold mintSeq at h
    cases h
    exact hm
  | cons a rest ih =>
    intro m m' hm h
    unfold mintSeq at h
    split at h
    next m'' heq => exact ih m'' m' (mint_ok_bounds heq).2.2 h
    next => exact Except.noConfusion h

/-! ## C2 -/

/-- C2: for every minter record, starting from `add_minter` (which
initializes `minted = 0`), after any sequence of successful `mint` (issue)
calls the invariant `minted ≤ quota` holds. -/
theorem add_minter_mintSeq_minted_le_quota
    (config : StablecoinConfig) (master minterKey : Pubkey)
    (quota bump : Nat) (L : Pubkey → Nat → Except Nat Unit)
    (as : List Nat) (m0 m' : MinterInfo)
    (h0 : add_minter config master minterKey quota bump = .ok m0)
    (h1 : mintSeq config minterKey L m0 as = .ok m') :
    m'.minted ≤ m'.quota := by
  have hm0 : m0.minted ≤ m0.quota := by
    unfold add_minter at h0
    split at h0
    · exact Except.noConfusion h0
    · cases h0
      exact Nat.zero_le _
  exact mintSeq_ok_invariant as m0 m' hm0 h1

/-- C2 witness: master authority `key 1` grants minter `key 7` quota `10`;
mints of `3` then `4` succeed and leave `minted = 7 ≤ 10 = quota`. -/
theorem add_minter_mintSeq_minted_le_quota_w :
    (⟨Pubkey.key 7, 10, 7, 0⟩ : MinterInfo).minted ≤
      (⟨Pubkey.key 7, 10, 7, 0⟩ : MinterInfo).quota :=
  add_minter_mintSeq_minted_le_quota sampleConfig (Pubkey.key 1)
    (Pubkey.key 7) 10 0 (fun _ _ => .ok ()) [3, 4]
    ⟨Pubkey.key 7, 10, 0, 0⟩ ⟨Pubkey.key 7, 10, 7, 0⟩ rfl rfl

/-! ## C3 -/

/-- C3 counterexample: the state `minted = quota = 2 ^ 64 - 1` is reached by
one successful maximal mint; a further `mint` of `1` has mathematical sum
`2 ^ 64 > quota`, so the claim requires `QuotaExceeded`, but the checked
`u64` sum aborts with the arithmetic-overflow error instead (and with
overflow checks off the sum would wrap to `0 ≤ quota` and the call would
even succeed) — in neither build does it fail with `QuotaExceeded`. -/
theorem mint_overflow_not_quotaExceeded :
    mint sampleConfig ⟨Pubkey.key 7, u64Bound - 1, 0, 0⟩ (Pubkey.key 7)
        (u64Bound - 1) (fun _ _ => .ok ()) =
      .ok ⟨Pubkey.key 7, u64Bound - 1, u64Bound - 1, 0⟩ ∧
    mint sampleConfig ⟨Pubkey.key 7, u64Bound - 1, u64Bound - 1, 0⟩
        (Pubkey.key 7) 1 (fun _ _ => .ok ()) = .error .arithmeticOverflow ∧
    (⟨Pubkey.key 7, u64Bound - 1, u64Bound - 1, 0⟩ : MinterInfo).quota <
      (⟨Pubkey.key 7, u64Bound - 1, u64Bound - 1, 0⟩ : MinterInfo).minted + 1 ∧
    TxError.arithmeticOverflow ≠ TxError.program .QuotaExceeded := by
  refine ⟨rfl, rfl, Nat.lt_succ_self _, by decide⟩

/-- C3 (amended): with the instrument unpaused, `mint` fails with
`QuotaExceeded` exactly when the `u64` sum `minted + amount` stays below
`2 ^ 64` and exceeds `quota`; when the sum reaches `2 ^ 64` the transaction
aborts with an arithmetic error instead.  On any failure the minter record
is unchanged.  After the master authority lowers the quota below `minted`,
issuance of any positive amount whose sum stays below `2 ^ 64` fails with
`QuotaExceeded`. -/
theorem mint_quotaExceeded_iff
    (config : StablecoinConfig) (m : MinterInfo) (minter : Pubkey)
    (amount : Nat) (L : Pubkey → Nat → Except Nat Unit)
    (hp : config.paused = false) :
    (mint config m minter amount L = .error (.program .QuotaExceeded) ↔
      m.minted + amount < u64Bound ∧ m.quota < m.minted + amount) ∧
    (∀ e, mint config m minter amount L = .error e →
      runMint config m minter amount L = (m, some e)) ∧
    (∀ q' m2, q' < m.minted →
      update_minter_quota config config.master_authority m q' = .ok m2 →
      0 < amount → m2.minted + amount < u64Bound →
      mint config m2 minter amount L = .error (.program .QuotaExceeded)) := by
  have key : ∀ m2 : MinterInfo,
      (mint config m2 minter amount L = .error (.program .QuotaExceeded) ↔
        m2.minted + amount < u64Bound ∧ m2.quota < m2.minted + amount) := by
    intro m2
    unfold mint
    rw [hp, if_neg Bool.false_ne_true]
    by_cases hov : u64Bound ≤ m2.minted + amount
    · rw [if_pos hov]
      constructor
      · intro h
        simp at h
      · rintro ⟨h1, _⟩
        omega
    · rw [if_neg hov]
      by_cases hq : m2.quota < m2.minted + amount
      · rw [if_pos hq]
        exact ⟨fun _ => ⟨Nat.lt_of_not_le hov, hq⟩, fun _ => rfl⟩
      · rw [if_neg hq]
        constructor
        · intro h
          cases hL : L minter amount with
          | ok u => rw [hL] at h; simp at h
          | error c => rw [hL] at h; simp at h
        · rintro ⟨_, h2⟩
          exact absurd h2 hq
  refine ⟨key m, ?_, ?_⟩
  · intro e h
    unfold runMint
    rw [h]
  · intro q' m2 hq' hupd ha hov
    unfold update_minter_quota at hupd
    split at hupd
    next hne => exact absurd rfl hne
    next =>
      cases hupd
      exact (key _).mpr ⟨hov, by dsimp only; omega⟩

/-- C3 witness for the amended theorem: `quota = 500`, `minted = 600`
(the spec's lowered-quota scenario); a mint of `100` fails with
`QuotaExceeded`. -/
theorem mint_quotaExceeded_iff_w :
    mint sampleConfig ⟨Pubkey.key 7, 500, 600, 0⟩ (Pubkey.key 7) 100
      (fun _ _ => .ok ()) = .error (.program .QuotaExceeded) :=
  ((mint_quotaExceeded_iff sampleConfig ⟨Pubkey.key 7, 500, 600, 0⟩
      (Pubkey.key 7) 100 (fun _ _ => .ok ()) rfl).1).mpr
    ⟨by norm_num [u64Bound], by norm_num⟩

/-! ## C4 -/

/-- C4 counterexample: the instrument config for the hook's mint is paused
(`paused = true`), the hook itself is not paused, and `execute` still
accepts the transfer — the handler never reads the stablecoin config's
pause flag (its `ExecuteTransferHook` context does not even bind the config
account, only the stablecoin program id). -/
theorem execute_ignores_instrument_pause :
    ({ sampleConfig with paused := true } : StablecoinConfig).paused = true ∧
    ({ sampleConfig with paused := true } : StablecoinConfig).mint =
      sampleHook.mint ∧
    sampleHook.paused = false ∧
    execute (Pubkey.key 9) sampleHook ⟨Pubkey.key 2, Pubkey.key 4⟩
      ⟨Pubkey.key 2, Pubkey.key 5⟩ 50 [] = .ok () := by
  refine ⟨rfl, rfl, rfl, rfl⟩

/-- C4 (amended): `execute` enforces only the hook-level pause gate: given
the context's mint constraints, it fails with `TransferPaused` when
`hook_data.paused` is set, and can never fail with `TransferPaused` when it
is clear; no instrument-level pause flag is read. -/
theorem execute_hook_pause_gate
    (programHook : Pubkey) (hook_data : TransferHookData)
    (source_token dest_token : TokenAccount) (amount : Nat)
    (store : BlacklistStore)
    (hs : source_token.mint = hook_data.mint)
    (hd : dest_token.mint = hook_data.mint) :
    (hook_data.paused = true →
      execute programHook hook_data source_token dest_token amount store =
        .error (.hook .TransferPaused)) ∧
    (hook_data.paused = false →
      execute programHook hook_data source_token dest_token amount store ≠
        .error (.hook .TransferPaused)) := by
  constructor
  · intro hpz
    unfold execute
    rw [if_neg (by simp [hs]), if_neg (by simp [hd]), hpz, if_pos rfl]
  · intro hpz
    unfold execute
    rw [if_neg (by simp [hs]), if_neg (by simp [hd]), hpz,
      if_neg Bool.false_ne_true]
    split
    · simp
    split
    · simp
    · simp

/-- C4 witness: with the hook-level flag set, `execute` fails with
`TransferPaused` on a concrete transfer. -/
theorem execute_hook_pause_gate_w :
    execute (Pubkey.key 9) { sampleHook with paused := true }
      ⟨Pubkey.key 2, Pubkey.key 4⟩ ⟨Pubkey.key 2, Pubkey.key 5⟩ 50 [] =
      .error (.hook .TransferPaused) :=
  (execute_hook_pause_gate (Pubkey.key 9) { sampleHook with paused := true }
    ⟨Pubkey.key 2, Pubkey.key 4⟩ ⟨Pubkey.key 2, Pubkey.key 5⟩ 50 [] rfl rfl).1
    rfl

/-! ## C5 -/

/-- C5: with the instrument pause flag set, `mint` and `burn` fail with
`TokenPaused`, while `freeze_account`, `thaw_account` and `seize` behave
exactly as in the unpaused config — they perform no pause check. -/
theorem pause_blocks_issue_redeem_only
    (config : StablecoinConfig) (m : MinterInfo)
    (minter burner freezeAuthority seizeSigner : Pubkey) (amount : Nat)
    (Lm Lb Ls : Pubkey → Nat → Except Nat Unit)
    (Lf Lt : Pubkey → Except Nat Unit)
    (hp : config.paused = true) :
    mint config m minter amount Lm = .error (.program .TokenPaused) ∧
    burn config burner amount Lb = .error (.program .TokenPaused) ∧
    freeze_account config freezeAuthority Lf =
      freeze_account { config with paused := false } freezeAuthority Lf ∧
    thaw_account config freezeAuthority Lt =
      thaw_account { config with paused := false } freezeAuthority Lt ∧
    seize config seizeSigner amount Ls =
      seize { config with paused := false } seizeSigner amount Ls := by
  refine ⟨?_, ?_, rfl, rfl, rfl⟩
  · unfold mint
    rw [hp, if_pos rfl]
  · unfold burn
    rw [hp, if_pos rfl]

/-- C5 witness: on the concrete paused config, `mint` and `burn` fail with
`TokenPaused` while `seize` by the seizer still reaches the ledger. -/
theorem pause_blocks_issue_redeem_only_w :
    mint { sampleConfig with paused := true } ⟨Pubkey.key 7, 10, 0, 0⟩
        (Pubkey.key 7) 1 (fun _ _ => .ok ()) =
      .error (.program .TokenPaused) ∧
    seize { sampleConfig with paused := true } (Pubkey.key 1) 5
        (fun _ _ => .ok ()) =
      seize sampleConfig (Pubkey.key 1) 5 (fun _ _ => .ok ()) :=
  ⟨(pause_blocks_issue_redeem_only { sampleConfig with paused := true }
      ⟨Pubkey.key 7, 10, 0, 0⟩ (Pubkey.key 7) (Pubkey.key 7) (Pubkey.key 7)
      (Pubkey.key 1) 1 (fun _ _ => .ok ()) (fun _ _ => .ok ())
      (fun _ _ => .ok ()) (fun _ => .ok ()) (fun _ => .ok ()) rfl).1,
   (pause_blocks_issue_redeem_only { sampleConfig with paused := true }
      ⟨Pubkey.key 7, 10, 0, 0⟩ (Pubkey.key 7) (Pubkey.key 7) (Pubkey.key 7)
      (Pubkey.key 1) 5 (fun _ _ => .ok ()) (fun _ _ => .ok ())
      (fun _ _ => .ok ()) (fun _ => .ok ()) (fun _ => .ok ()) rfl).2.2.2.2⟩

/-! ## C6 -/

/-- C6: `update_roles` and `transfer_authority` succeed exactly when the
invoking signer is the config's recorded master authority; any other signer
fails with `Unauthorized` and (with the host's rollback) leaves the config
unchanged. -/
theorem master_authority_gate
    (config : StablecoinConfig)
    (signer newBlacklister newPauser newSeizer newMaster : Pubkey) :
    (signer = config.master_authority →
      update_roles config signer newBlacklister newPauser newSeizer =
        .ok { config with
          blacklister := newBlacklister
          pauser := newPauser
          seizer := newSeizer } ∧
      transfer_authority config signer newMaster =
        .ok { config with master_authority := newMaster }) ∧
    (signer ≠ config.master_authority →
      runConfigUpdate config
          (update_roles config signer newBlacklister newPauser newSeizer) =
        (config, some (.program .Unauthorized)) ∧
      runConfigUpdate config (transfer_authority config signer newMaster) =
        (config, some (.program .Unauthorized))) := by
  constructor
  · intro h
    constructor
    · unfold update_roles
      rw [if_neg (not_not_intro h)]
    · unfold transfer_authority
      rw [if_neg (not_not_intro h)]
  · intro h
    constructor
    · unfold update_roles runConfigUpdate
      rw [if_pos h]
    · unfold transfer_authority runConfigUpdate
      rw [if_pos h]

/-- C6 witness: the master authority `key 1` rotates the roles; the stranger
`key 8` is refused with `Unauthorized` and the config survives unchanged. -/
theorem master_authority_gate_w :
    update_roles sampleConfig (Pubkey.key 1) (Pubkey.key 3) (Pubkey.key 4)
        (Pubkey.key 5) =
      .ok { sampleConfig with
        blacklister := Pubkey.key 3
        pauser := Pubkey.key 4
        seizer := Pubkey.key 5 } ∧
    runConfigUpdate sampleConfig
        (transfer_authority sampleConfig (Pubkey.key 8) (Pubkey.key 8)) =
      (sampleConfig, some (.program .Unauthorized)) :=
  ⟨((master_authority_gate sampleConfig (Pubkey.key 1) (Pubkey.key 3)
      (Pubkey.key 4) (Pubkey.key 5) (Pubkey.key 6)).1 rfl).1,
   ((master_authority_gate sampleConfig (Pubkey.key 8) (Pubkey.key 3)
      (Pubkey.key 4) (Pubkey.key 5) (Pubkey.key 8)).2 (by decide)).2⟩

/-! ## C7 -/

/-- C7: on an address with no existing record, `add_to_blacklist` followed
by `remove_from_blacklist` restores the pre-add blacklist state exactly (in
particular no record exists at the derived address afterwards), and
`remove_from_blacklist` without a prior add fails because no account exists
at the derived address. -/
theorem blacklist_add_remove_round_trip
    (programSss configKey : Pubkey) (config : StablecoinConfig)
    (signer user : Pubkey) (reason : String) (now : Int) (bump : Nat)
    (store : BlacklistStore)
    (hs : signer = config.blacklister)
    (hf : config.enable_transfer_hook = true)
    (hr : reason.length ≤ 100)
    (hn : storeLookup store (blacklistEntryPda programSss configKey user) =
      none) :
    add_to_blacklist programSss configKey config signer user reason now bump
        store =
      .ok ((blacklistEntryPda programSss configKey user,
        { user := user, reason := reason, timestamp := now, bump := bump }) ::
        store) ∧
    remove_from_blacklist programSss configKey config signer user
        ((blacklistEntryPda programSss configKey user,
          { user := user, reason := reason, timestamp := now, bump := bump }) ::
          store) =
      .ok store ∧
    remove_from_blacklist programSss configKey config signer user store =
      .error .accountNotInitialized := by
  refine ⟨?_, ?_, ?_⟩
  · unfold add_to_blacklist
    rw [if_neg (not_not_intro hs), hn]
    rw [if_neg (by simp), if_neg (by simp [hf]),
      if_neg (Nat.not_lt.mpr hr)]
  · unfold remove_from_blacklist
    rw [if_neg (not_not_intro hs)]
    have hcons : storeLookup
        ((blacklistEntryPda programSss configKey user,
          { user := user, reason := reason, timestamp := now, bump := bump }) ::
          store) (blacklistEntryPda programSss configKey user) =
        some { user := user, reason := reason, timestamp := now, bump := bump } := by
      unfold storeLookup
      rw [if_pos rfl]
    rw [hcons]
    rw [if_neg (by simp), if_neg (by simp [hf])]
    have herase : storeErase
        ((blacklistEntryPda programSss configKey user,
          { user := user, reason := reason, timestamp := now, bump := bump }) ::
          store) (blacklistEntryPda programSss configKey user) = store := by
      unfold storeErase
      rw [if_pos rfl]
    rw [herase]
  · unfold remove_from_blacklist
    rw [if_neg (not_not_intro hs), hn]
    simp

/-- C7 witness: blacklister `key 1` adds `key 4` to an empty registry and
removes it again; the registry is empty afterwards, and a remove on the
empty registry fails. -/
theorem blacklist_add_remove_round_trip_w :
    add_to_blacklist (Pubkey.key 0) (configPda (Pubkey.key 0) (Pubkey.key 2))
        sampleConfig (Pubkey.key 1) (Pubkey.key 4) "sanctions-list" 0 251
        [] =
      .ok [(blacklistEntryPda (Pubkey.key 0)
          (configPda (Pubkey.key 0) (Pubkey.key 2)) (Pubkey.key 4),
        { user := Pubkey.key 4, reason := "sanctions-list", timestamp := 0,
          bump := 251 })] ∧
    remove_from_blacklist (Pubkey.key 0)
        (configPda (Pubkey.key 0) (Pubkey.key 2)) sampleConfig (Pubkey.key 1)
        (Pubkey.key 4)
        [(blacklistEntryPda (Pubkey.key 0)
            (configPda (Pubkey.key 0) (Pubkey.key 2)) (Pubkey.key 4),
          { user := Pubkey.key 4, reason := "sanctions-list", timestamp := 0,
            bump := 251 })] =
      .ok [] ∧
    remove_from_blacklist (Pubkey.key 0)
        (configPda (Pubkey.key 0) (Pubkey.key 2)) sampleConfig (Pubkey.key 1)
        (Pubkey.key 4) [] = .error .accountNotInitialized :=
  blacklist_add_remove_round_trip (Pubkey.key 0)
    (configPda (Pubkey.key 0) (Pubkey.key 2)) sampleConfig (Pubkey.key 1)
    (Pubkey.key 4) "sanctions-list" 0 251 [] rfl rfl (by decide) rfl

/-! ## C8 -/

/-- C8 counterexample: compliance hook disabled, correct blacklister, no
record for the address (the only reachable situation, since the flag is set
once at genesis and `add_to_blacklist` can never succeed while it is off):
`remove_from_blacklist` fails during account validation with
`AccountNotInitialized`, not with `ComplianceNotEnabled`. -/
theorem remove_without_record_error_kind :
    ({ sampleConfig with enable_transfer_hook := false } :
        StablecoinConfig).enable_transfer_hook = false ∧
    ({ sampleConfig with enable_transfer_hook := false } :
        StablecoinConfig).blacklister = Pubkey.key 1 ∧
    remove_from_blacklist (Pubkey.key 0)
        (configPda (Pubkey.key 0) (Pubkey.key 2))
        { sampleConfig with enable_transfer_hook := false } (Pubkey.key 1)
        (Pubkey.key 4) [] = .error .accountNotInitialized ∧
    TxError.accountNotInitialized ≠
      TxError.program .ComplianceNotEnabled := by
  refine ⟨rfl, rfl, rfl, by decide⟩

/-- C8 (amended): with the instrument's `enable_transfer_hook` flag off and
the correct blacklister signing, `add_to_blacklist` on an address with no
existing record fails with `ComplianceNotEnabled`;
`remove_from_blacklist` fails with `AccountNotInitialized` when no record
exists at the derived address and with `ComplianceNotEnabled` when one does
(the latter state is unreachable, as the flag is immutable after genesis);
neither operation can succeed, so no record is created or destroyed. -/
theorem blacklist_ops_compliance_disabled
    (programSss configKey : Pubkey) (config : StablecoinConfig)
    (signer user : Pubkey) (reason : String) (now : Int) (bump : Nat)
    (store : BlacklistStore)
    (hs : signer = config.blacklister)
    (hf : config.enable_transfer_hook = false) :
    (storeLookup store (blacklistEntryPda programSss configKey user) = none →
      add_to_blacklist programSss configKey config signer user reason now
          bump store =
        .error (.program .ComplianceNotEnabled) ∧
      remove_from_blacklist programSss configKey config signer user store =
        .error .accountNotInitialized) ∧
    (∀ e, storeLookup store (blacklistEntryPda programSss configKey user) =
        some e →
      add_to_blacklist programSss configKey config signer user reason now
          bump store =
        .error .accountAlreadyInUse ∧
      remove_from_blacklist programSss configKey config signer user store =
        .error (.program .ComplianceNotEnabled)) ∧
    (∀ store', add_to_blacklist programSss configKey config signer user
        reason now bump store ≠ .ok store') ∧
    (∀ store', remove_from_blacklist programSss configKey config signer user
        store ≠ .ok store') := by
  have hadd : ∀ r, add_to_blacklist programSss configKey config signer user
      reason now bump store = r →
      (storeLookup store (blacklistEntryPda programSss configKey user) =
          none → r = .error (.program .ComplianceNotEnabled)) ∧
      (∀ e, storeLookup store (blacklistEntryPda programSss configKey user) =
          some e → r = .error .accountAlreadyInUse) := by
    intro r hrw
    unfold add_to_blacklist at hrw
    rw [if_neg (not_not_intro hs)] at hrw
    constructor
    · intro hn
      rw [hn] at hrw
      rw [if_neg (by simp)] at hrw
      rw [if_pos hf] at hrw
      exact hrw.symm
    · intro e he
      rw [he] at hrw
      rw [if_pos (by simp)] at hrw
      exact hrw.symm
  have hrem : ∀ r, remove_from_blacklist programSss configKey config signer
      user store = r →
      (storeLookup store (blacklistEntryPda programSss configKey user) =
          none → r = .error .accountNotInitialized) ∧
      (∀ e, storeLookup store (blacklistEntryPda programSss configKey user) =
          some e → r = .error (.program .ComplianceNotEnabled)) := by
    intro r hrw
    unfold remove_from_blacklist at hrw
    rw [if_neg (not_not_intro hs)] at hrw
    constructor
    · intro hn
      rw [hn] at hrw
      rw [if_pos (by simp)] at hrw
      exact hrw.symm
    · intro e he
      rw [he] at hrw
      rw [if_neg (by simp)] at hrw
      rw [if_pos hf] at hrw
      exact hrw.symm
  refine ⟨?_, ?_, ?_, ?_⟩
  · intro hn
    exact ⟨(hadd _ rfl).1 hn, (hrem _ rfl).1 hn⟩
  · intro e he
    exact ⟨(hadd _ rfl).2 e he, (hrem _ rfl).2 e he⟩
  · intro store' hok
    cases hlook : storeLookup store
        (blacklistEntryPda programSss configKey user) with
    | none => exact Except.noConfusion ((hadd _ hok).1 hlook)
    | some e => exact Except.noConfusion ((hadd _ hok).2 e hlook)
  · intro store' hok
    cases hlook : storeLookup store
        (blacklistEntryPda programSss configKey user) with
    | none => exact Except.noConfusion ((hrem _ hok).1 hlook)
    | some e => exact Except.noConfusion ((hrem _ hok).2 e hlook)

/-- C8 witness for the amended theorem: flag off, correct blacklister
`key 1`: on the empty registry, add fails `ComplianceNotEnabled` and remove
fails `AccountNotInitialized`. -/
theorem blacklist_ops_compliance_disabled_w :
    add_to_blacklist (Pubkey.key 0) (configPda (Pubkey.key 0) (Pubkey.key 2))
        { sampleConfig with enable_transfer_hook := false } (Pubkey.key 1)
        (Pubkey.key 4) "sanctions-list" 0 251 [] =
      .error (.program .ComplianceNotEnabled) ∧
    remove_from_blacklist (Pubkey.key 0)
        (configPda (Pubkey.key 0) (Pubkey.key 2))
        { sampleConfig with enable_transfer_hook := false } (Pubkey.key 1)
        (Pubkey.key 4) [] = .error .accountNotInitialized :=
  (blacklist_ops_compliance_disabled (Pubkey.key 0)
    (configPda (Pubkey.key 0) (Pubkey.key 2))
    { sampleConfig with enable_transfer_hook := false } (Pubkey.key 1)
    (Pubkey.key 4) "sanctions-list" 0 251 [] rfl rfl).1 rfl

/-! ## C1 -/

/-- The registry state produced by blacklisting owner `key 4`: one record at
the address `AddToBlacklist` derives, PDA
`["blacklist", config, user]` under the `sss-token` program (`key 0`). -/
def blacklistedStore : BlacklistStore :=
  [(blacklistEntryPda (Pubkey.key 0) (configPda (Pubkey.key 0) (Pubkey.key 2))
      (Pubkey.key 4),
    { user := Pubkey.key 4, reason := "sanctions-list", timestamp := 0,
      bump := 251 })]

/-- C1 (code bug): the blacklister blacklists owner `key 4` through
`add_to_blacklist`, yet `execute` (hook not paused) accepts a transfer sent
by that very owner, because the hook probes PDA
`["blacklist", hook_data.mint, owner]` derived under the transfer-hook
program (`key 9`) — an address at which neither program ever creates an
account — while the record lives at PDA `["blacklist", config.key(),
user.key()]` under the stablecoin program (`key 0`); the last conjunct
exhibits the two distinct derived addresses.  The destination-owner check
misses records the same way. -/
theorem execute_misses_added_blacklist_record :
    add_to_blacklist (Pubkey.key 0) (configPda (Pubkey.key 0) (Pubkey.key 2))
        sampleConfig (Pubkey.key 1) (Pubkey.key 4) "sanctions-list" 0 251
        [] = .ok blacklistedStore ∧
    sampleHook.paused = false ∧
    execute (Pubkey.key 9) sampleHook ⟨Pubkey.key 2, Pubkey.key 4⟩
        ⟨Pubkey.key 2, Pubkey.key 5⟩ 50 blacklistedStore = .ok () ∧
    execute (Pubkey.key 9) sampleHook ⟨Pubkey.key 2, Pubkey.key 5⟩
        ⟨Pubkey.key 2, Pubkey.key 4⟩ 50 blacklistedStore = .ok () ∧
    blacklistEntryPda (Pubkey.key 0)
        (configPda (Pubkey.key 0) (Pubkey.key 2)) (Pubkey.key 4) ≠
      hookProbePda (Pubkey.key 9) (Pubkey.key 2) (Pubkey.key 4) := by
  refine ⟨rfl, rfl, rfl, rfl, by decide⟩

/-! ## C9 -/

/-- C9: after every successful `initialize`, the blacklister, pauser and
seizer role fields all equal the initializing master authority's identity,
and the pause flag is `false`. -/
theorem initConfig_default_roles
    (authority mintKey : Pubkey) (name symbol uri : String)
    (decimals bump : Nat) (epd eth daf : Bool) (c : StablecoinConfig)
    (h : initConfig authority mintKey name symbol uri decimals epd eth daf
      bump = .ok c) :
    c.master_authority = authority ∧ c.blacklister = authority ∧
    c.pauser = authority ∧ c.seizer = authority ∧ c.paused = false := by
  unfold initConfig at h
  split at h
  · exact Except.noConfusion h
  split at h
  · exact Except.noConfusion h
  split at h
  · exact Except.noConfusion h
  · cases h
    exact ⟨rfl, rfl, rfl, rfl, rfl⟩

/-- C9 witness: a concrete genesis by authority `key 1`. -/
theorem initConfig_default_roles_w :
    sampleConfig.master_authority = Pubkey.key 1 ∧
    sampleConfig.blacklister = Pubkey.key 1 ∧
    sampleConfig.pauser = Pubkey.key 1 ∧
    sampleConfig.seizer = Pubkey.key 1 ∧
    sampleConfig.paused = false :=
  initConfig_default_roles (Pubkey.key 1) (Pubkey.key 2) "Sample USD" "SUSD"
    "https://example.org/susd.json" 6 255 true true false sampleConfig rfl

/-! ## C10 -/

/-- C10: `burn` performs no role check against the config: for every
invoking signer the only local precondition is that the instrument is not
paused, the outcome is otherwise exactly the external ledger's verdict on
(signer, amount), and the config's four role fields are irrelevant to the
result. -/
theorem burn_no_role_check
    (config : StablecoinConfig) (burner : Pubkey) (amount : Nat)
    (L : Pubkey → Nat → Except Nat Unit)
    (w x y z : Pubkey) :
    (config.paused = false →
      burn config burner amount L = liftLedger (L burner amount)) ∧
    (config.paused = true →
      burn config burner amount L = .error (.program .TokenPaused)) ∧
    burn config burner amount L =
      burn { config with
        master_authority := w
        blacklister := x
        pauser := y
        seizer := z } burner amount L := by
  refine ⟨?_, ?_, rfl⟩
  · intro hp
    unfold burn
    rw [hp, if_neg Bool.false_ne_true]
  · intro hp
    unfold burn
    rw [hp, if_pos rfl]

/-- C10 witness: signer `key 8` holds none of the roles of `sampleConfig`
(all `key 1`), yet its burn goes straight through to the accepting ledger. -/
theorem burn_no_role_check_w :
    burn sampleConfig (Pubkey.key 8) 25 (fun _ _ => .ok ()) =
      liftLedger ((fun _ _ => (.ok () : Except Nat Unit)) (Pubkey.key 8) 25) :=
  (burn_no_role_check sampleConfig (Pubkey.key 8) 25 (fun _ _ => .ok ())
    (Pubkey.key 1) (Pubkey.key 1) (Pubkey.key 1) (Pubkey.key 1)).1 rfl
